import Mathlib

/-!
Verification of the resolution pipeline of the `mediaflow_proxy` extractor
repository (files `extractors/vidoza.py`, `extractors/turbovidplay.py`,
`extractors/vk.py`) against its natural-language specification.

The three adapters are shallowly embedded as pure Lean functions.  The
network is modelled as an oracle: a queue of `Response` values consumed in
order by successive `_make_request` calls, together with a trace of the
URLs that were fetched.  The base-class plumbing (`BaseExtractor`,
`ExtractorError`, `_make_request`) is not under `src/`; it is modelled from
the spec where noted.  Everything else is translated directly from the
Python source.
-/

namespace MFP

/-- A JSON value, the shape produced by Python `json.loads`.  Objects keep
their fields in insertion order, as Python dicts do. -/
inductive J where
  | null : J
  | bool (b : Bool) : J
  | num (n : Int) : J
  | str (s : String) : J
  | arr (items : List J) : J
  | obj (fields : List (String × J)) : J

/-- Python whitespace characters, the ASCII fragment of `\s` /
`str.strip` (the inputs handled here are ASCII). -/
def isPySpace (c : Char) : Bool :=
  c = ' ' || c = '\t' || c = '\n' || c = '\r' || c = '\x0b' || c = '\x0c'

/-- Does `hay` contain `needle` as a contiguous substring (Python `in`)? -/
def containsSub (needle : List Char) : List Char → Bool
  | [] => needle.isPrefixOf []
  | c :: rest => needle.isPrefixOf (c :: rest) || containsSub needle rest

/-- Python `needle in hay` for strings. -/
def strContains (hay needle : String) : Bool := containsSub needle.data hay.data

/-- Python `s.startswith(pre)`. -/
def pyStartsWith (s pre : String) : Bool := pre.data.isPrefixOf s.data

/-- Python `s.endswith(suf)`. -/
def pyEndsWith (s suf : String) : Bool := suf.data.isSuffixOf s.data

/-- The spec's notion of an absolute locator: it starts with `http://` or
`https://`. -/
def strIsAbsolute (s : String) : Bool :=
  "http://".data.isPrefixOf s.data || "https://".data.isPrefixOf s.data

/-- Python `s.lstrip(set)`: drop leading characters that belong to `set`. -/
def pyLstripSet (set s : String) : String :=
  String.mk (s.data.dropWhile (fun c => set.data.contains c))

/-- Python `s.strip()` (whitespace both ends). -/
def pyStrip (s : String) : String :=
  String.mk (((s.data.dropWhile isPySpace).reverse.dropWhile isPySpace).reverse)

/-- `s.split(";")[0]`: the part of a header value before the first `;`. -/
def headerMain (s : String) : String :=
  pyStrip (String.mk (s.data.takeWhile (fun c => c != ';')))

/-- Split a character list at every occurrence of `c` (Python `str.split`). -/
def splitOnChar (c : Char) : List Char → List (List Char)
  | [] => [[]]
  | x :: t =>
    match splitOnChar c t with
    | [] => [[]]
    | h :: r => if x == c then [] :: h :: r else (x :: h) :: r

/-- Truthiness of a JSON value under Python `bool(...)`. -/
def jTruthy : J → Bool
  | .null => false
  | .bool b => b
  | .num n => n != 0
  | .str s => s != ""
  | .arr l => !l.isEmpty
  | .obj l => !l.isEmpty

/-- `d.get(k, default)` on a value already known to be a dict; on a
non-dict it returns the default (callers that can hit a non-dict use
`dictGet` instead, which models the `AttributeError`). -/
def objGetD (j : J) (k : String) (d : J) : J :=
  match j with
  | .obj fields =>
    match fields.find? (fun kv => kv.1 == k) with
    | some kv => kv.2
    | none => d
  | _ => d

/-- Insert into a Python dict: an existing key keeps its position and gets
the new value, a new key is appended. -/
def assocSet (l : List (String × J)) (k : String) (v : J) : List (String × J) :=
  match l with
  | [] => [(k, v)]
  | (k', v') :: t => if k' == k then (k, v) :: t else (k', v') :: assocSet t k v

/-- Python `a or b` on JSON values: `a` if truthy, else `b`. -/
def pyOr (a b : J) : J := if jTruthy a then a else b

/-- Intermediate parsing state for the JSON reader: reading a single value,
the remaining items of an array, or the remaining fields of an object. -/
inductive PMode where
  | val : PMode
  | arrCont (acc : List J) : PMode
  | objCont (acc : List (String × J)) : PMode

/-- Leading JSON whitespace. -/
def skipWs (s : List Char) : List Char :=
  s.dropWhile (fun c => c = ' ' || c = '\t' || c = '\n' || c = '\r')

/-- Read a JSON string body up to the closing quote (the escape-free
fragment, which covers every payload exercised here). -/
def readStr : List Char → Option (String × List Char)
  | [] => none
  | c :: t => if c = '"' then some ( "", t)
              else (readStr t).map (fun p => (String.mk (c :: p.1.data), p.2))

/-- Read a run of decimal digits as a natural number. -/
def readDigits : List Char → List Char → Option (Nat × List Char)
  | acc, c :: t =>
    if c.isDigit then readDigits (acc ++ [c]) t
    else if acc.isEmpty then none
    else some (acc.foldl (fun n d => n * 10 + (d.toNat - 48)) 0, c :: t)
  | acc, [] =>
    if acc.isEmpty then none
    else some (acc.foldl (fun n d => n * 10 + (d.toNat - 48)) 0, [])

/-- Fuel-driven JSON reader modelling Python `json.loads` on the integer /
string / array / object fragment. -/
def pj : Nat → PMode → List Char → Option (J × List Char)
  | 0, _, _ => none
  | fuel + 1, .val, s =>
    match skipWs s with
    | [] => none
    | '\x7b' :: r =>
      (match skipWs r with
       | '\x7d' :: r2 => some (.obj [], r2)
       | _ => pj fuel (.objCont []) r)
    | '[' :: r =>
      (match skipWs r with
       | ']' :: r2 => some (.arr [], r2)
       | _ => pj fuel (.arrCont []) r)
    | '"' :: r => (readStr r).map (fun p => (.str p.1, p.2))
    | 't' :: 'r' :: 'u' :: 'e' :: r => some (.bool true, r)
    | 'f' :: 'a' :: 'l' :: 's' :: 'e' :: r => some (.bool false, r)
    | 'n' :: 'u' :: 'l' :: 'l' :: r => some (.null, r)
    | '-' :: r => (readDigits [] r).map (fun p => (.num (-(p.1 : Int)), p.2))
    | c :: r =>
      if c.isDigit then (readDigits [] (c :: r)).map (fun p => (.num (p.1 : Int), p.2))
      else none
  | fuel + 1, .arrCont acc, s =>
    match pj fuel .val s with
    | none => none
    | some (v, r) =>
      match skipWs r with
      | ',' :: r2 => pj fuel (.arrCont (acc ++ [v])) r2
      | ']' :: r2 => some (.arr (acc ++ [v]), r2)
      | _ => none
  | fuel + 1, .objCont acc, s =>
    match skipWs s with
    | '"' :: r =>
      (match readStr r with
       | none => none
       | some (k, r1) =>
         match skipWs r1 with
         | ':' :: r2 =>
           (match pj fuel .val r2 with
            | none => none
            | some (v, r3) =>
              match skipWs r3 with
              | ',' :: r4 => pj fuel (.objCont (assocSet acc k v)) r4
              | '\x7d' :: r4 => some (.obj (assocSet acc k v), r4)
              | _ => none)
         | _ => none)
    | _ => none

/-- `json.loads`: parse one value and require only whitespace after it. -/
def jsonLoads (s : String) : Option J :=
  match pj (2 * s.data.length + 8) .val s.data with
  | some (v, rest) => if (skipWs rest).isEmpty then some v else none
  | none => none

/-! ## URL parsing (the fragment of `urllib.parse` the adapters use) -/

/-- Characters legal in a URL scheme after the first (alphabetic) one. -/
def isSchemeChar (c : Char) : Bool := c.isAlphanum || c = '+' || c = '-' || c = '.'

/-- Split `scheme:rest` when the prefix before the first `:` is a valid
scheme (as `urlparse` does); otherwise there is no scheme. -/
def schemeSplit (s : List Char) : Option (List Char × List Char) :=
  let pre := s.takeWhile (fun c => c != ':')
  let rest := s.drop pre.length
  match rest with
  | ':' :: r =>
    match pre with
    | [] => none
    | c0 :: _ => if c0.isAlpha && pre.all isSchemeChar then some (pre, r) else none
  | _ => none

/-- The part of the URL after the scheme (the whole URL when there is no
scheme). -/
def afterScheme (s : List Char) : List Char :=
  match schemeSplit s with
  | some pr => pr.2
  | none => s

/-- The netloc: present only when the post-scheme part starts with `//`,
and then runs until `/`, `?` or `#`. -/
def netlocOf (s : List Char) : Option (List Char) :=
  match afterScheme s with
  | '/' :: '/' :: r => some (r.takeWhile (fun c => !(c = '/' || c = '?' || c = '#')))
  | _ => none

/-- The netloc part after the last `@` (drops userinfo, as
`urllib.parse` does). -/
def afterLastAt (l : List Char) : List Char :=
  (l.reverse.takeWhile (fun c => c != '@')).reverse

/-- `urlparse(url).hostname`: lowercased host with userinfo and port
stripped, `none` when empty or absent.  (The bracketed IPv6 form is not
modelled; no adapter input uses it.) -/
def urlHostname (url : String) : Option String :=
  match netlocOf url.data with
  | none => none
  | some nl =>
    match (afterLastAt nl).takeWhile (fun c => c != ':') with
    | [] => none
    | host => some (String.mk (host.map Char.toLower))

/-- The path component: post-scheme, minus the netloc, up to `?` or `#`. -/
def urlPathOf (url : String) : String :=
  let rest := afterScheme url.data
  let rest2 :=
    match rest with
    | '/' :: '/' :: r => r.dropWhile (fun c => !(c = '/' || c = '?' || c = '#'))
    | _ => rest
  String.mk (rest2.takeWhile (fun c => !(c = '?' || c = '#')))

/-- The query component: between the first `?` and any `#`. -/
def urlQueryOf (url : String) : String :=
  let beforeFrag := url.data.takeWhile (fun c => c != '#')
  match beforeFrag.dropWhile (fun c => c != '?') with
  | '?' :: q => String.mk q
  | _ => ""

/-- The origin `scheme://netloc` of an absolute URL.  Modelled from the
spec: the transport's response exposes the final URL, whose origin the
multi-hop adapter uses to resolve root-relative locators. -/
def urlOrigin (u : String) : String :=
  match schemeSplit u.data, netlocOf u.data with
  | some pr, some nl => String.mk (pr.1.map Char.toLower) ++ "://" ++ String.mk nl
  | _, _ => u

/-- `urllib.parse.parse_qsl` on the fragment used here: fields split on
`&`, a field without `=` or with an empty value is dropped
(`keep_blank_values=False`); percent-decoding is not modelled (no adapter
input relies on it). -/
def parseQsl (q : String) : List (String × String) :=
  (splitOnChar '&' q.data).filterMap (fun f =>
    let k := f.takeWhile (fun c => c != '=')
    match f.drop k.length with
    | '=' :: v => if v.isEmpty then none else some (String.mk k, String.mk v)
    | _ => none)

/-- `parse_qs(q).get(k, [None])[0]`: the first value bound to `k`. -/
def qsFirst (q k : String) : Option String :=
  ((parseQsl q).find? (fun kv => kv.1 == k)).map (fun kv => kv.2)

/-! ## The regular-expression searches of the three adapters

Each Python `re.search` is embedded as a bespoke matcher with the same
leftmost-match, greedy-with-backtracking semantics, written with small
fuel-driven combinators. -/

/-- Match a literal at the head of the input, returning the rest. -/
def litP (lit s : List Char) : Option (List Char) :=
  if lit.isPrefixOf s then some (s.drop lit.length) else none

/-- Match a literal case-insensitively (for patterns under
`re.IGNORECASE`). -/
def litIC : List Char → List Char → Option (List Char)
  | [], s => some s
  | _ :: _, [] => none
  | a :: as', b :: bs => if a.toLower == b.toLower then litIC as' bs else none

/-- Greedy `cls*` with backtracking: try the longest run first, handing
the consumed characters and the rest to the continuation. -/
def starBt (p : Char → Bool) : Nat → List Char → List Char →
    (List Char → List Char → Option (List Char)) → Option (List Char)
  | 0, s, acc, k => k acc s
  | fuel + 1, s, acc, k =>
    (match s with
     | c :: r => if p c then starBt p fuel r (acc ++ [c]) k else none
     | [] => none) <|> k acc s

/-- Greedy `cls+` with backtracking (at least one character). -/
def plusBt (p : Char → Bool) (fuel : Nat) (s : List Char)
    (k : List Char → List Char → Option (List Char)) : Option (List Char) :=
  match s with
  | c :: r => if p c then starBt p fuel r [c] k else none
  | [] => none

/-- The quote characters of the Vidoza pattern. -/
def isQuoteCh (c : Char) : Bool := c = '"' || c = '\''

/-! ### Vidoza: `["'\s](?:file|src)["'\s:]*["']([^"']+)(?:[^}\]]+)["']\s*res`
(IGNORECASE), from `vidoza.py`. -/

/-- Tail of the Vidoza pattern after the `file`/`src` keyword; returns the
captured `url` group. -/
def vidozaTail (fuel : Nat) (s2 : List Char) : Option (List Char) :=
  starBt (fun c => isQuoteCh c || isPySpace c || c = ':') fuel s2 [] (fun _ s3 =>
    match s3 with
    | q :: s4 =>
      if isQuoteCh q then
        plusBt (fun c => !isQuoteCh c) fuel s4 (fun cap s5 =>
          plusBt (fun c => !(c = '\x7d' || c = ']')) fuel s5 (fun _ s6 =>
            match s6 with
            | q2 :: s7 =>
              if isQuoteCh q2 then
                (litIC "res".data (s7.dropWhile isPySpace)).map (fun _ => cap)
              else none
            | [] => none))
      else none
    | [] => none)

/-- One attempted match of the Vidoza pattern at the current position. -/
def vidozaMatchAt (fuel : Nat) (s : List Char) : Option (List Char) :=
  match s with
  | c :: s1 =>
    if isQuoteCh c || isPySpace c then
      match litIC "file".data s1 with
      | some s2 =>
        (vidozaTail fuel s2) <|>
          (match litIC "src".data s1 with
           | some s2' => vidozaTail fuel s2'
           | none => none)
      | none =>
        match litIC "src".data s1 with
        | some s2' => vidozaTail fuel s2'
        | none => none
    else none
  | [] => none

/-- Leftmost search for the Vidoza JS-player pattern; yields the `url`
capture group. -/
def vidozaSearchAux : Nat → List Char → Option (List Char)
  | 0, _ => none
  | fuel + 1, s =>
    match vidozaMatchAt (s.length + 1) s with
    | some cap => some cap
    | none =>
      match s with
      | [] => none
      | _ :: t => vidozaSearchAux fuel t

/-- `js_pattern.search(html)` of `VidozaExtractor.extract`. -/
def vidozaSearch (html : String) : Option String :=
  (vidozaSearchAux (html.data.length + 1) html.data).map String.mk

/-! ### TurboVidPlay hop 1: `(?:urlPlay|data-hash)\s*=\s*['"]([^'"]+)` -/

/-- Pattern tail after the `urlPlay`/`data-hash` keyword: `\s*=\s*` then a
quote, capturing the longest run of non-quote characters. -/
def m1Tail (s : List Char) : Option (List Char) :=
  match s.dropWhile isPySpace with
  | '=' :: s1 =>
    (match (s1.dropWhile isPySpace) with
     | q :: s2 =>
       if q = '\'' || q = '"' then
         match s2.takeWhile (fun c => !(c = '\'' || c = '"')) with
         | [] => none
         | cap => some cap
       else none
     | [] => none)
  | _ => none

/-- One attempted match of the hop-1 pattern at the current position. -/
def m1MatchAt (s : List Char) : Option (List Char) :=
  match litP "urlPlay".data s with
  | some s1 => m1Tail s1
  | none =>
    match litP "data-hash".data s with
    | some s1 => m1Tail s1
    | none => none

/-- Leftmost search for the hop-1 pattern. -/
def m1SearchAux : Nat → List Char → Option (List Char)
  | 0, _ => none
  | fuel + 1, s =>
    match m1MatchAt s with
    | some cap => some cap
    | none =>
      match s with
      | [] => none
      | _ :: t => m1SearchAux fuel t

/-- `re.search(r'(?:urlPlay|data-hash)\s*=\s*[quote]([^quote]+)', html)`
of `TurboVidPlayExtractor.extract`, returning group 1. -/
def m1Search (html : String) : Option String :=
  (m1SearchAux (html.data.length + 1) html.data).map String.mk

/-! ### TurboVidPlay hop 2: `https?://[^'"\s]+\.m3u8` -/

/-- Characters allowed in the URL body of the hop-2 pattern. -/
def isM2Char (c : Char) : Bool := !(c = '\'' || c = '"' || isPySpace c)

/-- After the scheme: greedy URL-body run backtracking into the literal
`.m3u8`; returns the body captured before the literal. -/
def m2AfterScheme (fuel : Nat) (s : List Char) : Option (List Char) :=
  plusBt isM2Char fuel s (fun acc rest =>
    (litP ".m3u8".data rest).map (fun _ => acc))

/-- One attempted match of the hop-2 pattern: `http`, optional greedy `s`,
`://`, body, `.m3u8`.  Yields the `s?` choice and the body. -/
def m2MatchAt (fuel : Nat) (s : List Char) : Option (Bool × List Char) :=
  match litP "http".data s with
  | none => none
  | some s1 =>
    (match s1 with
     | 's' :: s2 =>
       (litP "://".data s2).bind (fun s3 =>
         (m2AfterScheme fuel s3).map (fun mid => (true, mid)))
     | _ => none)
    <|>
    (litP "://".data s1).bind (fun s3 =>
      (m2AfterScheme fuel s3).map (fun mid => (false, mid)))

/-- Leftmost search for the hop-2 pattern. -/
def m2SearchAux : Nat → List Char → Option (Bool × List Char)
  | 0, _ => none
  | fuel + 1, s =>
    match m2MatchAt (s.length + 1) s with
    | some r => some r
    | none =>
      match s with
      | [] => none
      | _ :: t => m2SearchAux fuel t

/-- `re.search(r'https?://[^quote-space]+\.m3u8', playlist)` of
`TurboVidPlayExtractor.extract`, returning the whole match (group 0). -/
def m2Search (playlist : String) : Option String :=
  (m2SearchAux (playlist.data.length + 1) playlist.data).map (fun pr =>
    String.mk ((if pr.1 then "https://" else "http://").data ++ pr.2 ++ ".m3u8".data))

/-! ### VK: `video(-?\d+)_(\d+)`, `https?://([^/]+)`, `\?(.*)` -/

/-- A nonempty greedy digit run. -/
def digitsP (s : List Char) : Option (List Char × List Char) :=
  match s.takeWhile Char.isDigit with
  | [] => none
  | ds => some (ds, s.drop ds.length)

/-- After the first capture of `video(-?\d+)_(\d+)`: `_` then digits. -/
def vkVidTail (d1 : List Char) (s : List Char) : Option (String × String) :=
  match s with
  | '_' :: s1 => (digitsP s1).map (fun pr => (String.mk d1, String.mk pr.1))
  | _ => none

/-- One attempted match of `video(-?\d+)_(\d+)` at the current position. -/
def vkVidMatchAt (s : List Char) : Option (String × String) :=
  (litP "video".data s).bind (fun s1 =>
    (match s1 with
     | '-' :: s2 =>
       (digitsP s2).bind (fun pr => vkVidTail ('-' :: pr.1) pr.2)
     | _ => none)
    <|>
    (digitsP s1).bind (fun pr => vkVidTail pr.1 pr.2))

/-- Leftmost search for `video(-?\d+)_(\d+)` (groups 1 and 2). -/
def vkVidSearchAux : Nat → List Char → Option (String × String)
  | 0, _ => none
  | fuel + 1, s =>
    match vkVidMatchAt s with
    | some r => some r
    | none =>
      match s with
      | [] => none
      | _ :: t => vkVidSearchAux fuel t

/-- `re.search(r"video(-?\d+)_(\d+)", url)` of `VKExtractor._normalize`. -/
def vkVidSearch (url : String) : Option (String × String) :=
  vkVidSearchAux (url.data.length + 1) url.data

/-- One attempted match of `https?://([^/]+)` at the current position. -/
def vkHostMatchAt (s : List Char) : Option String :=
  (litP "http".data s).bind (fun s1 =>
    let afterSlashes :=
      (match s1 with
       | 's' :: s2 => litP "://".data s2
       | _ => none)
      <|> litP "://".data s1
    afterSlashes.bind (fun s3 =>
      match s3.takeWhile (fun c => c != '/') with
      | [] => none
      | host => some (String.mk host)))

/-- Leftmost search for `https?://([^/]+)` (group 1). -/
def vkHostSearchAux : Nat → List Char → Option String
  | 0, _ => none
  | fuel + 1, s =>
    match vkHostMatchAt s with
    | some r => some r
    | none =>
      match s with
      | [] => none
      | _ :: t => vkHostSearchAux fuel t

/-- `re.search(r"https?://([^/]+)", embed_url)` of
`VKExtractor._build_ajax_url`. -/
def vkHostSearch (url : String) : Option String :=
  vkHostSearchAux (url.data.length + 1) url.data

/-- `re.search(r"\?(.*)", embed_url)`: everything after the first `?` up
to a newline (`.` does not cross lines), from `VKExtractor._build_ajax_data`. -/
def vkAfterQm (url : String) : Option String :=
  match url.data.dropWhile (fun c => c != '?') with
  | '?' :: rest => some (String.mk (rest.takeWhile (fun c => c != '\n')))
  | _ => none

/-! ## The transport oracle and the adapter state

Modelled from the spec: the transport collaborator `fetch` returns a
response with body text, final URL after redirects, headers and cookies;
a transport-level failure terminates the `resolve` call.  The network is
an oracle queue of responses consumed in order, plus a trace of attempted
fetch URLs. -/

/-- Header maps as ordered association lists (Python dicts). -/
abbrev Headers := List (String × String)

/-- Python dict assignment `h[k] = v`: update in place or append. -/
def hset (h : Headers) (k v : String) : Headers :=
  match h with
  | [] => [(k, v)]
  | (k', v') :: t => if k' == k then (k, v) :: t else (k', v') :: hset t k v

/-- Python `dict.update`: fold the updates in order. -/
def hupdate (h upd : Headers) : Headers :=
  upd.foldl (fun a kv => hset a kv.1 kv.2) h

/-- A transport response: body text, final URL after redirects, the
`content-type` header value (empty when absent) and the cookies it set. -/
structure Response where
  text : String := ""
  finalURL : String := ""
  contentType : String := ""
  cookies : List (String × String) := []
deriving DecidableEq

/-- A failure terminating a `resolve` call: a site-tagged
`ExtractorError`, a transport failure, or an uncaught Python exception. -/
inductive Err where
  | extractor (message : String) : Err
  | fetchFailed : Err
  | pyError (what : String) : Err
deriving DecidableEq

/-- The world an extract call runs in: the pending oracle responses, the
trace of fetch URLs attempted so far, and the adapter instance's
`base_headers`. -/
structure St where
  net : List Response
  trace : List String
  baseHeaders : Headers
deriving DecidableEq

/-- `self._make_request(url, ...)`: record the attempt and consume the
next oracle response; an exhausted oracle is a transport failure.
Modelled from the spec (the base class is not under `src/`). -/
def fetchStep (u : String) (st : St) : Except Err Response × St :=
  match st.net with
  | [] => (.error .fetchFailed, { st with trace := st.trace ++ [u] })
  | r :: rest => (.ok r, { st with net := rest, trace := st.trace ++ [u] })

/-- The descriptor returned by the Vidoza and TurboVidPlay adapters. -/
structure Descriptor where
  destination_url : String
  request_headers : Headers
  mediaflow_endpoint : String
deriving DecidableEq

/-- The descriptor returned by the VK adapter; its destination comes out
of a JSON payload, so it is a JSON value. -/
structure VKDescriptor where
  destination_url : J
  request_headers : Headers
  mediaflow_endpoint : String

/-! ## VidozaExtractor (`vidoza.py`) -/

/-- The browser-like headers dict literal of `VidozaExtractor.extract`. -/
def vidozaBrowserHeaders : Headers :=
  [ ("referer", "https://vidoza.net/"),
    ("origin", "https://vidoza.net"),
    ("user-agent", "Mozilla/5.0 (Windows NT 10.0; Win64; x64) AppleWebKit/537.36 (KHTML, like Gecko) Chrome/120.0.0.0 Safari/537.36"),
    ("accept", "*/*"),
    ("accept-language", "en-US,en;q=0.9") ]

/-- The domain guard of `VidozaExtractor.extract`:
`parsed.hostname and parsed.hostname.endswith("videzz.net")`. -/
def vidozaDomainOk (url : String) : Bool :=
  match urlHostname url with
  | some h => pyEndsWith h "videzz.net"
  | none => false

/-- `"; ".join(f"{k}={v}" for k, v in cookies.items())`. -/
def cookieJoin (cookies : List (String × String)) : String :=
  String.intercalate "; " (cookies.map (fun kv => kv.1 ++ "=" ++ kv.2))

/-- `VidozaExtractor.extract`, translated line by line from
`vidoza.py`. -/
def vidozaExtract (url : String) (st : St) : Except Err Descriptor × St :=
  if vidozaDomainOk url then
    match fetchStep url st with
    | (.error e, st1) => (.error e, st1)
    | (.ok r, st1) =>
      if r.text == "" then
        (.error (.extractor "VIDOZA: Empty embed page"), st1)
      else
        match vidozaSearch r.text with
        | none =>
          (.error (.extractor "VIDOZA: Unable to extract stream URL (JS source not found)"), st1)
        | some streamUrl0 =>
          (.ok { destination_url :=
                   if pyStartsWith streamUrl0 "//" then "https:" ++ streamUrl0 else streamUrl0,
                 request_headers :=
                   if r.cookies.isEmpty then
                     hset (hupdate st1.baseHeaders vidozaBrowserHeaders)
                       "referer" "https://vidoza.net/"
                   else
                     hset (hset (hupdate st1.baseHeaders vidozaBrowserHeaders)
                             "referer" "https://vidoza.net/")
                       "cookie" (cookieJoin r.cookies),
                 mediaflow_endpoint := "proxy_stream_endpoint" }, st1)
  else
    (.error (.extractor "VIDOZA: Invalid domain"), st)

/-! ## TurboVidPlayExtractor (`turbovidplay.py`) -/

/-- The `domains` class attribute of `TurboVidPlayExtractor` (consulted by
the Dispatcher, not by `extract`). -/
def turboDomains : List String :=
  [ "turboviplay.com", "emturbovid.com", "tuborstb.co",
    "javggvideo.xyz", "stbturbo.xyz", "turbovidhls.com" ]

/-- Suffix-matching of a URL host against the TurboVidPlay domain set (the
Dispatcher-side check, for stating what `extract` itself does not do). -/
def turboDomainMatch (url : String) : Bool :=
  match urlHostname url with
  | some h => turboDomains.any (fun d => pyEndsWith h d)
  | none => false

/-- `TurboVidPlayExtractor.extract`, translated line by line from
`turbovidplay.py`.  Note step 6 assigns into the instance's
`base_headers`. -/
def turboExtract (url : String) (st : St) : Except Err Descriptor × St :=
  match fetchStep url st with
  | (.error e, st1) => (.error e, st1)
  | (.ok r, st1) =>
    match m1Search r.text with
    | none => (.error (.extractor "TurboViPlay: No media URL found"), st1)
    | some mediaUrl0 =>
      match fetchStep
          (if pyStartsWith mediaUrl0 "//" then "https:" ++ mediaUrl0
           else if pyStartsWith mediaUrl0 "/" then urlOrigin r.finalURL ++ mediaUrl0
           else mediaUrl0) st1 with
      | (.error e, st2) => (.error e, st2)
      | (.ok r2, st2) =>
        match m2Search r2.text with
        | none => (.error (.extractor "TurboViPlay: Unable to extract real playlist URL"), st2)
        | some realM3u8 =>
          match fetchStep realM3u8 st2 with
          | (.error e, st3) => (.error e, st3)
          | (.ok r3, st3) =>
            (.ok { destination_url := realM3u8,
                   request_headers := hset st3.baseHeaders "referer" url,
                   mediaflow_endpoint :=
                     if strContains r3.text "#EXTINF" then "hls_playlist_proxy"
                     else "hls_manifest_proxy" },
             { st3 with baseHeaders := hset st3.baseHeaders "referer" url })

/-! ## VKExtractor (`vk.py`) -/

/-- The module-level `UA` constant of `vk.py`. -/
def vkUA : String :=
  "Mozilla/5.0 (Windows NT 10.0; Win64; x64) AppleWebKit/537.36 (KHTML, like Gecko) Chrome/129.0 Safari/537.36"

/-- The headers dict literal of `VKExtractor.extract`. -/
def vkHeaders : Headers :=
  [ ("User-Agent", vkUA),
    ("Referer", "https://vkvideo.ru/"),
    ("Origin", "https://vkvideo.ru"),
    ("Cookie", "remixlang=0"),
    ("X-Requested-With", "XMLHttpRequest") ]

/-- `VKExtractor._normalize`: canonicalize any VK URL to the
`video_ext.php` form. -/
def vkNormalize (url : String) : String :=
  if strContains (urlPathOf url) "video_ext.php" then url
  else
    match qsFirst (urlQueryOf url) "oid", qsFirst (urlQueryOf url) "id" with
    | some oid, some vid =>
      "https://vkvideo.ru/video_ext.php?oid=" ++ oid ++ "&id=" ++ vid
    | _, _ =>
      match vkVidSearch url with
      | some pr => "https://vkvideo.ru/video_ext.php?oid=" ++ pr.1 ++ "&id=" ++ pr.2
      | none => url

/-- `VKExtractor._build_ajax_url`: `al_video.php` on the embed host. -/
def vkBuildAjaxUrl (embedUrl : String) : String :=
  let host := (vkHostSearch embedUrl).getD "vkvideo.ru"
  "https://" ++ host ++ "/al_video.php?act=show"

/-- `VKExtractor._build_ajax_data`: POST form fields derived from the
embed URL's query string.  (The network oracle does not consume the body,
so this value feeds no further definition; it is embedded for
completeness.) -/
def vkBuildAjaxData (embedUrl : String) : List (String × J) :=
  let parts : List (String × String) :=
    match vkAfterQm embedUrl with
    | none => []
    | some q =>
      (splitOnChar '&' q.data).foldl (fun (acc : List (String × String)) (x : List Char) =>
        let k := x.takeWhile (fun c => c != '=')
        match x.drop k.length with
        | '=' :: v => (acc.filter (fun kv => kv.1 != String.mk k)) ++
                        [(String.mk k, String.mk v)]
        | _ => acc) []
  let oid := (parts.find? (fun kv => kv.1 == "oid")).map (fun kv => kv.2)
  let vid := (parts.find? (fun kv => kv.1 == "id")).map (fun kv => kv.2)
  let video :=
    match oid, vid with
    | some o, some v => o ++ "_" ++ v
    | _, _ => ""
  [ ("act", .str "show"), ("al", .num 1), ("video", .str video) ]

/-- `item.get(k)` on an arbitrary value: a non-dict raises
`AttributeError` (Python has no `.get` there). -/
def dictGet (j : J) (k : String) (d : J) : Except Err J :=
  match j with
  | .obj _ => .ok (objGetD j k d)
  | _ => .error (.pyError "AttributeError: .get on a non-dict")

/-- Python `for item in x`: lists yield their items, dicts their keys,
strings their characters; other values raise `TypeError`. -/
def pyIter : J → Except Err (List J)
  | .arr l => .ok l
  | .obj fields => .ok (fields.map (fun kv => .str kv.1))
  | .str s => .ok (s.data.map (fun c => .str (String.mk [c])))
  | _ => .error (.pyError "TypeError: not iterable")

/-- The payload scan shared by both VK helpers:
`for item in ...: if isinstance(item, list): payload = item` —
the last list wins, an absent list leaves `[]`. -/
def payloadPick (items : List J) : List J :=
  items.foldl (fun acc it =>
    match it with
    | .arr l => l
    | _ => acc) []

/-- One step of the `params` scan of `_extract_progressive_mp4` /
`_extract_hls`: a dict item with a truthy `player` whose `params` is a
nonempty list overwrites the accumulator with `params[0]`. -/
def paramsLoopStep (acc : Option J) (it : J) : Except Err (Option J) :=
  match it with
  | .obj _ =>
    let player := objGetD it "player" .null
    if jTruthy player then
      match dictGet player "params" .null with
      | .error e => .error e
      | .ok p =>
        match p with
        | .arr (h :: _) => .ok (some h)
        | _ => .ok acc
    else .ok acc
  | _ => .ok acc

/-- The `params` scan of `_extract_progressive_mp4`. -/
def mp4ParamsLoop (payload : List J) : Except Err (Option J) :=
  payload.foldlM paramsLoopStep none

/-- The `params` scan of `_extract_hls` (duplicated in the source). -/
def hlsParamsLoop (payload : List J) : Except Err (Option J) :=
  payload.foldlM paramsLoopStep none

/-- The params node `_extract_progressive_mp4` settles on. -/
def mp4Params (jsonData : J) : Except Err (Option J) :=
  match dictGet jsonData "payload" (.arr []) with
  | .error e => .error e
  | .ok payloadField =>
    match pyIter payloadField with
    | .error e => .error e
    | .ok items => mp4ParamsLoop (payloadPick items)

/-- The params node `_extract_hls` settles on. -/
def hlsParams (jsonData : J) : Except Err (Option J) :=
  match dictGet jsonData "payload" (.arr []) with
  | .error e => .error e
  | .ok payloadField =>
    match pyIter payloadField with
    | .error e => .error e
    | .ok items => hlsParamsLoop (payloadPick items)

/-- `VKExtractor._extract_progressive_mp4`: pull
`url1080 or url720 or url480 or url360` from the selected params
(Python `None` is `J.null`). -/
def extractProgressiveMp4 (jsonData : J) : Except Err J :=
  match mp4Params jsonData with
  | .error e => .error e
  | .ok params? =>
    let params := params?.getD .null
    if jTruthy params then
      match dictGet params "url1080" .null with
      | .error e => .error e
      | .ok u1080 =>
        .ok (pyOr u1080 (pyOr (objGetD params "url720" .null)
              (pyOr (objGetD params "url480" .null) (objGetD params "url360" .null))))
    else .ok .null

/-- `VKExtractor._extract_hls`: pull `hls or hls_ondemand or hls_live`
from the selected params. -/
def extractHls (jsonData : J) : Except Err J :=
  match hlsParams jsonData with
  | .error e => .error e
  | .ok params? =>
    let params := params?.getD .null
    if jTruthy params then
      match dictGet params "hls" .null with
      | .error e => .error e
      | .ok h =>
        .ok (pyOr h (pyOr (objGetD params "hls_ondemand" .null)
              (objGetD params "hls_live" .null)))
    else .ok .null

/-- The MPD test of `VKExtractor.extract`:
`"application/dash+xml" in content_type or "<MPD" in text`, with
`content_type = (headers.get("content-type") or "").split(";")[0].strip()`. -/
def vkIsMpd (r : Response) : Bool :=
  strContains (headerMain r.contentType) "application/dash+xml" ||
    strContains r.text "<MPD"

/-- `VKExtractor.extract`, translated line by line from `vk.py`. -/
def vkExtract (url : String) (st : St) : Except Err VKDescriptor × St :=
  match fetchStep (vkNormalize url) st with
  | (.error e, st1) => (.error e, st1)
  | (.ok resp, st1) =>
    if vkIsMpd resp then
      (.ok { destination_url := .str resp.finalURL,
             request_headers := vkHeaders,
             mediaflow_endpoint := "mpd_manifest_proxy" }, st1)
    else
      match fetchStep (vkBuildAjaxUrl (vkNormalize url)) st1 with
      | (.error e, st2) => (.error e, st2)
      | (.ok ajaxResp, st2) =>
        match jsonLoads (pyLstripSet "<!--" ajaxResp.text) with
        | none =>
          (.error (.extractor "VK: invalid JSON payload (no MPD, no params)"), st2)
        | some jsonData =>
          match extractProgressiveMp4 jsonData with
          | .error e => (.error e, st2)
          | .ok mp4 =>
            if jTruthy mp4 then
              (.ok { destination_url := mp4,
                     request_headers := vkHeaders,
                     mediaflow_endpoint := "proxy_stream_endpoint" }, st2)
            else
              match extractHls jsonData with
              | .error e => (.error e, st2)
              | .ok hls =>
                if jTruthy hls then
                  (.ok { destination_url := hls,
                         request_headers := vkHeaders,
                         mediaflow_endpoint := "hls_manifest_proxy" }, st2)
                else
                  (.error (.extractor "VK: no DASH MPD, no MP4 and no HLS URL found"), st2)

/-! ## Auxiliary notions the claims quantify over -/

/-- The last `list`-shaped entry of the payload walk. -/
def jAsList : J → Option (List J)
  | .arr l => some l
  | _ => none

/-- The last element of a list, with a default. -/
def lastD {α : Type} : List α → α → α
  | [], d => d
  | x :: t, _ => lastD t x

/-- An item that overwrites the `params` accumulator: a dict with a truthy
dict `player` whose `params` is a nonempty list; it contributes
`params[0]`. -/
def qualif : J → Option J
  | .obj fields =>
    let player := objGetD (.obj fields) "player" .null
    if jTruthy player then
      match player with
      | .obj pf =>
        (match objGetD (.obj pf) "params" .null with
         | .arr (h :: _) => some h
         | _ => none)
      | _ => none
    else none
  | _ => none

/-- A payload item whose truthy `player` (if any) is a dict — the items
on which the source loop cannot raise `AttributeError`. -/
def wfPlayer (it : J) : Bool :=
  match it with
  | .obj fields =>
    !jTruthy (objGetD (.obj fields) "player" .null) ||
      (match objGetD (.obj fields) "player" .null with
       | .obj _ => true
       | _ => false)
  | _ => true

/-- No item of the payload has a truthy non-dict `player` (which would
raise `AttributeError` in the source); the scenario the claims range
over. -/
def wfPlayers (l : List J) : Bool := l.all wfPlayer

/-! ## Concrete fixtures for the VK payload scenarios -/

/-- An `al_video.php` response exposing both an HLS candidate and a
progressive `url720` candidate at once. -/
def c2FixtureText : String :=
  "<!--\x7b\"payload\":[[\x7b\"player\":\x7b\"params\":[\x7b\"hls\":\"https://c.example/m.m3u8\",\"url720\":\"https://c.example/v720.mp4\"\x7d]\x7d\x7d]]\x7d"

/-- The JSON tree `json.loads` produces for `c2FixtureText`. -/
def c2FixtureJson : J :=
  .obj [( "payload",
    .arr [ .arr [ .obj [( "player",
      .obj [( "params",
        .arr [ .obj [( "hls", .str "https://c.example/m.m3u8"),
                     ( "url720", .str "https://c.example/v720.mp4")]])])]]])]

/-- An `al_video.php` response with only `url720`/`url360` progressive
candidates (no `url1080`, no HLS fields). -/
def c7FixtureText : String :=
  "<!--\x7b\"payload\":[[\x7b\"player\":\x7b\"params\":[\x7b\"url720\":\"https://c.example/v720.mp4\",\"url360\":\"https://c.example/v360.mp4\"\x7d]\x7d\x7d]]\x7d"

/-- The JSON tree `json.loads` produces for `c7FixtureText`. -/
def c7FixtureJson : J :=
  .obj [( "payload",
    .arr [ .arr [ .obj [( "player",
      .obj [( "params",
        .arr [ .obj [( "url720", .str "https://c.example/v720.mp4"),
                     ( "url360", .str "https://c.example/v360.mp4")]])])]]])]

/-- The params node of `c7FixtureJson`. -/
def c7FixtureParams : J :=
  .obj [( "url720", .str "https://c.example/v720.mp4"),
        ( "url360", .str "https://c.example/v360.mp4")]

/-! # Helper lemmas -/

theorem isPrefixOf_append_self (l t : List Char) : l.isPrefixOf (l ++ t) = true := by
  induction l with
  | nil => simp [List.isPrefixOf]
  | cons a as ih => simp [List.isPrefixOf, ih]

theorem fetchStep_baseHeaders (u : String) (st : St) :
    (fetchStep u st).2.baseHeaders = st.baseHeaders := by
  unfold fetchStep
  rcases hn : st.net <;> simp [hn]

theorem fetchStep_trace (u : String) (st : St) :
    (fetchStep u st).2.trace = st.trace ++ [u] := by
  unfold fetchStep
  rcases hn : st.net <;> simp [hn]

/-- A doubly extended list extends the original: packaging of
associativity for the trace lemmas. -/
theorem append2_exists {α : Type} (A b c : List α) : ∃ t, (A ++ b) ++ c = A ++ t :=
  ⟨b ++ c, List.append_assoc A b c⟩

/-- An error result never equals a success result (paired with state). -/
theorem err_pair_ne_ok {e : Err} {stX st2 : St} {d : Descriptor}
    (h : ((Except.error e : Except Err Descriptor), stX) = (.ok d, st2)) : False := by
  simp at h

/-- Read the returned descriptor off a success-result equation. -/
theorem ok_pair_dest {d x : Descriptor} {stX st2 : St}
    (h : ((Except.ok x : Except Err Descriptor), stX) = (.ok d, st2)) : d = x := by
  simp only [Prod.mk.injEq, Except.ok.injEq] at h
  exact h.1.symm

/-- Every string the hop-2 pattern can return starts with `http://` or
`https://`, because the pattern itself anchors on the scheme. -/
theorem m2Search_absolute (s u : String) (h : m2Search s = some u) :
    strIsAbsolute u = true := by
  unfold m2Search at h
  cases haux : m2SearchAux (s.data.length + 1) s.data with
  | none => rw [haux] at h; simp at h
  | some pr =>
    rw [haux] at h
    simp only [Option.map_some'] at h
    cases h
    cases pr with
    | mk b mid =>
      cases b with
      | false =>
        have : ( "http://").data.isPrefixOf
            (( "http://").data ++ (mid ++ ( ".m3u8").data)) = true :=
          isPrefixOf_append_self _ _
        simp only [strIsAbsolute, List.append_assoc]
        simp [this]
      | true =>
        have : ( "https://").data.isPrefixOf
            (( "https://").data ++ (mid ++ ( ".m3u8").data)) = true :=
          isPrefixOf_append_self _ _
        simp only [strIsAbsolute, List.append_assoc]
        simp [this]

/-! # Claims -/

/-- C9: the Vidoza domain guard is a plain string-suffix test with no
label boundary: the host `notvidezz.net` — neither `videzz.net` nor a
subdomain of it — passes the guard, so `extract` does not raise the
domain error and proceeds to fetch the page (the fetch appears in the
trace; the run then fails on the empty fixture body, not on the domain). -/
theorem C9_domain_suffix_no_boundary :
    vidozaDomainOk "https://notvidezz.net/embed-1.html" = true
    ∧ (vidozaExtract "https://notvidezz.net/embed-1.html"
        ⟨[{ text := "" }], [], []⟩).2.trace = [ "https://notvidezz.net/embed-1.html"]
    ∧ (vidozaExtract "https://notvidezz.net/embed-1.html"
        ⟨[{ text := "" }], [], []⟩).1 = .error (.extractor "VIDOZA: Empty embed page") :=
  ⟨rfl, rfl, rfl⟩

/-- C1 counterexample: the claim says every adapter re-checks its domain
inside `extract` and fails before any fetch on a foreign host.  For the
TurboVidPlay adapter this is false: on a URL whose host matches none of
its `domains`, `extract` performs the first fetch (the URL enters the
trace) and fails with the hop-1 pattern error, not a domain error. -/
theorem C1_counterexample :
    turboDomainMatch "https://evil.example/v" = false
    ∧ (turboExtract "https://evil.example/v"
        ⟨[{ text := "nothing here" }], [], []⟩).2.trace = [ "https://evil.example/v"]
    ∧ (turboExtract "https://evil.example/v"
        ⟨[{ text := "nothing here" }], [], []⟩).1
        = .error (.extractor "TurboViPlay: No media URL found") :=
  ⟨rfl, rfl, rfl⟩

/-- C1 (amended): only the Vidoza adapter re-checks its accepted domain
inside `extract` — for every URL failing the `videzz.net` suffix test it
fails with the domain error and leaves the state untouched (no fetch);
the TurboVidPlay and VK adapters perform no domain re-check and always
attempt their first fetch (of the input URL, resp. of the normalized
embed URL) whatever the host. -/
theorem C1_amended_only_vidoza_rechecks (url : String) (st : St) :
    (vidozaDomainOk url = false →
      vidozaExtract url st = (.error (.extractor "VIDOZA: Invalid domain"), st))
    ∧ (∃ t, (turboExtract url st).2.trace = st.trace ++ [url] ++ t)
    ∧ (∃ t, (vkExtract url st).2.trace = st.trace ++ [vkNormalize url] ++ t) := by
  refine ⟨?_, ?_, ?_⟩
  · intro h
    simp [vidozaExtract, h]
  · rcases hn : st.net with _ | ⟨r, rest⟩
    · exact ⟨[], by simp [turboExtract, fetchStep, hn]⟩
    · rcases hm1 : m1Search r.text with _ | m
      · exact ⟨[], by simp [turboExtract, fetchStep, hn, hm1]⟩
      · rcases hrest : rest with _ | ⟨r2, rest2⟩
        · simp only [turboExtract, fetchStep, hn, hm1, hrest]
          exact ⟨_, rfl⟩
        · rcases hm2 : m2Search r2.text with _ | rm
          · simp only [turboExtract, fetchStep, hn, hm1, hrest, hm2]
            exact ⟨_, rfl⟩
          · rcases hrest2 : rest2 with _ | ⟨r3, rest3⟩
            · simp only [turboExtract, fetchStep, hn, hm1, hrest, hm2, hrest2]
              exact append2_exists _ _ _
            · simp only [turboExtract, fetchStep, hn, hm1, hrest, hm2, hrest2]
              exact append2_exists _ _ _
  · rcases hn : st.net with _ | ⟨r, rest⟩
    · exact ⟨[], by simp [vkExtract, fetchStep, hn]⟩
    · by_cases hmpd : vkIsMpd r
      · exact ⟨[], by simp [vkExtract, fetchStep, hn, hmpd]⟩
      · rcases hrest : rest with _ | ⟨r2, rest2⟩
        · simp only [vkExtract, fetchStep, hn, hmpd, hrest]
          exact ⟨_, rfl⟩
        · rcases hj : jsonLoads (pyLstripSet "<!--" r2.text) with _ | j
          · simp only [vkExtract, fetchStep, hn, hmpd, hrest, hj]
            exact ⟨_, rfl⟩
          · rcases hmp4 : extractProgressiveMp4 j with e | mp4
            · simp only [vkExtract, fetchStep, hn, hmpd, hrest, hj, hmp4]
              exact ⟨_, rfl⟩
            · by_cases htr : jTruthy mp4
              · simp only [vkExtract, fetchStep, hn, hmpd, hrest, hj, hmp4, htr]
                exact ⟨_, rfl⟩
              · rcases hhls : extractHls j with e | hls
                · simp only [vkExtract, fetchStep, hn, hmpd, hrest, hj, hmp4, htr, hhls]
                  exact ⟨_, rfl⟩
                · by_cases htr2 : jTruthy hls
                  · simp only [vkExtract, fetchStep, hn, hmpd, hrest, hj, hmp4, htr, hhls, htr2]
                    exact ⟨_, rfl⟩
                  · simp only [vkExtract, fetchStep, hn, hmpd, hrest, hj, hmp4, htr, hhls, htr2]
                    exact ⟨_, rfl⟩

/-- C1 witness: the amended theorem applied at a concrete foreign-host
URL: Vidoza rejects it without touching the state. -/
theorem C1_amended_witness :
    vidozaExtract "https://evil.example/v" ⟨[], [], []⟩
      = (.error (.extractor "VIDOZA: Invalid domain"), ⟨[], [], []⟩) :=
  (C1_amended_only_vidoza_rechecks "https://evil.example/v" ⟨[], [], []⟩).1 rfl

/-- C4 counterexample: a Vidoza embed page whose JS player block carries a
root-relative locator.  The claim says every successful `extract` returns
an absolute destination; here the run succeeds with the origin-relative
destination `/video.mp4` (only `//`-prefixed locators are normalized). -/
theorem C4_counterexample :
    ((vidozaExtract "https://videzz.net/embed-abc.html"
        ⟨[{ text := "\x7b\"file\":\"/video.mp4\",\"res\":\"720\"\x7d" }], [], []⟩).1.map
          (fun d => d.destination_url)) = .ok "/video.mp4"
    ∧ strIsAbsolute "/video.mp4" = false :=
  ⟨rfl, rfl⟩

/-- C4 (amended): the multi-hop TurboVidPlay adapter's successful
destination is always absolute, because the hop-2 pattern anchors on
`http(s)://`; the Vidoza adapter normalizes protocol-relative locators
(its successful destination never starts with `//`) but returns an
origin-relative locator unchanged. -/
theorem C4_amended_dest_shapes :
    (∀ (url : String) (st : St) (d : Descriptor) (st2 : St),
        turboExtract url st = (.ok d, st2) → strIsAbsolute d.destination_url = true)
    ∧ (∀ (url : String) (st : St) (d : Descriptor) (st2 : St),
        vidozaExtract url st = (.ok d, st2) → pyStartsWith d.destination_url "//" = false) := by
  constructor
  · intro url st d st2 h
    unfold turboExtract at h
    repeat' split at h
    all_goals first
      | exact (err_pair_ne_ok h).elim
      | (rw [ok_pair_dest h]
         exact m2Search_absolute _ _ (by assumption))
  · intro url st d st2 h
    unfold vidozaExtract at h
    repeat' split at h
    all_goals first
      | exact (err_pair_ne_ok h).elim
      | (rw [ok_pair_dest h]
         first
           | (simp only [pyStartsWith, String.data_append]
              rfl)
           | simpa using (by assumption : ¬pyStartsWith _ "//" = true))

/-- C4 witness: the amended theorem applied to a successful TurboVidPlay
run and a successful Vidoza run. -/
theorem C4_amended_witness :
    strIsAbsolute "https://cdn.example/real.m3u8" = true
    ∧ pyStartsWith "/video.mp4" "//" = false := by
  constructor
  · exact C4_amended_dest_shapes.1 "https://emturbovid.com/t/abc"
      ⟨[{ text := "var urlPlay = 'https://mid.example/x'" },
        { text := "see https://cdn.example/real.m3u8 ok" },
        { text := "#EXTM3U" }], [], []⟩
      { destination_url := "https://cdn.example/real.m3u8",
        request_headers := [( "referer", "https://emturbovid.com/t/abc")],
        mediaflow_endpoint := "hls_manifest_proxy" }
      ⟨[], [ "https://emturbovid.com/t/abc", "https://mid.example/x",
             "https://cdn.example/real.m3u8"],
        [( "referer", "https://emturbovid.com/t/abc")]⟩ rfl
  · exact C4_amended_dest_shapes.2 "https://videzz.net/embed-abc.html"
      ⟨[{ text := "\x7b\"file\":\"/video.mp4\",\"res\":\"888\"\x7d" }], [], []⟩
      { destination_url := "/video.mp4",
        request_headers := vidozaBrowserHeaders,
        mediaflow_endpoint := "proxy_stream_endpoint" }
      ⟨[], [ "https://videzz.net/embed-abc.html"], []⟩ rfl

/-- C5: in the multi-hop adapter, a successful run classifies the final
playlist by its fetched body: the media-playlist endpoint
(`hls_playlist_proxy`) is returned exactly when the third fetched body
contains `#EXTINF`, and the master-playlist endpoint
(`hls_manifest_proxy`) exactly otherwise. -/
theorem C5_media_vs_master (url : String) (tr : List String) (bh : Headers)
    (r1 r2 r3 : Response) (rest : List Response) (d : Descriptor)
    (hok : (turboExtract url ⟨r1 :: r2 :: r3 :: rest, tr, bh⟩).1 = .ok d) :
    (d.mediaflow_endpoint = "hls_playlist_proxy" ↔ strContains r3.text "#EXTINF" = true)
    ∧ (d.mediaflow_endpoint = "hls_manifest_proxy" ↔ strContains r3.text "#EXTINF" = false) := by
  simp only [turboExtract, fetchStep] at hok
  rcases hm1 : m1Search r1.text with _ | m <;> rw [hm1] at hok
  · simp at hok
  · rcases hm2 : m2Search r2.text with _ | rm <;> rw [hm2] at hok
    · simp at hok
    · simp only [Except.ok.injEq] at hok
      rw [← hok]
      rcases hC : strContains r3.text "#EXTINF" <;> simp [hC]

/-- C5 witness: a concrete run whose final body holds `#EXTINF` yields the
media sub-mode endpoint. -/
theorem C5_witness :
    ( "hls_playlist_proxy" = "hls_playlist_proxy"
        ↔ strContains "#EXTM3U\n#EXTINF:4.0,\nseg.ts" "#EXTINF" = true) :=
  (C5_media_vs_master "https://emturbovid.com/t/abc" [] []
    { text := "var urlPlay = 'https://mid.example/x'" }
    { text := "see https://cdn.example/real.m3u8 ok" }
    { text := "#EXTM3U\n#EXTINF:4.0,\nseg.ts" } []
    { destination_url := "https://cdn.example/real.m3u8",
      request_headers := [( "referer", "https://emturbovid.com/t/abc")],
      mediaflow_endpoint := "hls_playlist_proxy" } rfl).1

/-- C6: the two extraction hops of the multi-hop adapter fail with
distinct, stage-naming errors: the `No media URL found` error is raised
exactly when the hop-1 pattern is absent from the first fetched body, and
the `Unable to extract real playlist URL` error exactly when hop 1
succeeded but no `http(s)://...m3u8` URL occurs in the second fetched
body. -/
theorem C6_stage_errors (url : String) (tr : List String) (bh : Headers)
    (r1 r2 : Response) (rest : List Response) :
    ((turboExtract url ⟨r1 :: r2 :: rest, tr, bh⟩).1
        = .error (.extractor "TurboViPlay: No media URL found")
      ↔ m1Search r1.text = none)
    ∧ ((turboExtract url ⟨r1 :: r2 :: rest, tr, bh⟩).1
        = .error (.extractor "TurboViPlay: Unable to extract real playlist URL")
      ↔ ((m1Search r1.text).isSome = true ∧ m2Search r2.text = none)) := by
  simp only [turboExtract, fetchStep]
  rcases hm1 : m1Search r1.text with _ | m
  · simp
  · rcases hm2 : m2Search r2.text with _ | rm
    · simp
    · rcases hrest : rest with _ | ⟨r3, rest2⟩ <;> simp

/-- C6 witness: the hop-1 error on a body with no media URL, and the
hop-2 error on an intermediate playlist with no `.m3u8` URL. -/
theorem C6_witness :
    (turboExtract "https://emturbovid.com/t/a"
        ⟨[{ text := "no media here" }, { text := "x" }], [], []⟩).1
      = .error (.extractor "TurboViPlay: No media URL found")
    ∧ (turboExtract "https://emturbovid.com/t/a"
        ⟨[{ text := "urlPlay = 'https://mid.example/i'" }, { text := "still no playlist" }], [], []⟩).1
      = .error (.extractor "TurboViPlay: Unable to extract real playlist URL") := by
  constructor
  · exact (C6_stage_errors "https://emturbovid.com/t/a" [] []
      { text := "no media here" } { text := "x" } []).1.mpr rfl
  · exact (C6_stage_errors "https://emturbovid.com/t/a" [] []
      { text := "urlPlay = 'https://mid.example/i'" } { text := "still no playlist" } []).2.mpr
      ⟨rfl, rfl⟩

/-- C8 counterexample: a successful TurboVidPlay run mutates the adapter
instance: starting from empty `base_headers` (the state after
construction with no defaults), the call leaves `base_headers` holding the
referer it assigned in step 6, so the post-call state differs from the
post-construction state. -/
theorem C8_counterexample :
    (turboExtract "https://emturbovid.com/t/abc"
        ⟨[{ text := "var urlPlay = 'https://mid.example/x'" },
          { text := "see https://cdn.example/real.m3u8 ok" },
          { text := "#EXTM3U\n#EXTINF:4.0,\nseg.ts" }], [], []⟩).2.baseHeaders
      = [( "referer", "https://emturbovid.com/t/abc")]
    ∧ ([( "referer", "https://emturbovid.com/t/abc")] : Headers) ≠ [] :=
  ⟨rfl, by decide⟩

/-- C8 (amended): the Vidoza and VK extracts never mutate the instance's
`base_headers`; the TurboVidPlay extract leaves them unchanged on every
failure but, on success, sets `base_headers["referer"]` to the input URL,
mutating the instance. -/
theorem C8_amended_mutation (url : String) (st : St) :
    (vidozaExtract url st).2.baseHeaders = st.baseHeaders
    ∧ (vkExtract url st).2.baseHeaders = st.baseHeaders
    ∧ (∀ (d : Descriptor) (st2 : St), turboExtract url st = (.ok d, st2) →
        st2.baseHeaders = hset st.baseHeaders "referer" url)
    ∧ (∀ (e : Err) (st2 : St), turboExtract url st = (.error e, st2) →
        st2.baseHeaders = st.baseHeaders) := by
  refine ⟨?_, ?_, ?_, ?_⟩
  · by_cases hd : vidozaDomainOk url
    · rcases hn : st.net with _ | ⟨r, rest⟩
      · simp [vidozaExtract, fetchStep, hd, hn]
      · by_cases he : r.text == ""
        · simp [vidozaExtract, fetchStep, hd, hn, he]
        · rcases hs : vidozaSearch r.text with _ | s0 <;>
            simp [vidozaExtract, fetchStep, hd, hn, he, hs]
    · simp [vidozaExtract, hd]
  · rcases hn : st.net with _ | ⟨r, rest⟩
    · simp [vkExtract, fetchStep, hn]
    · by_cases hmpd : vkIsMpd r
      · simp [vkExtract, fetchStep, hn, hmpd]
      · rcases hrest : rest with _ | ⟨r2, rest2⟩
        · simp [vkExtract, fetchStep, hn, hmpd, hrest]
        · rcases hj : jsonLoads (pyLstripSet "<!--" r2.text) with _ | j
          · simp [vkExtract, fetchStep, hn, hmpd, hrest, hj]
          · rcases hmp4 : extractProgressiveMp4 j with e | mp4
            · simp [vkExtract, fetchStep, hn, hmpd, hrest, hj, hmp4]
            · by_cases htr : jTruthy mp4
              · simp [vkExtract, fetchStep, hn, hmpd, hrest, hj, hmp4, htr]
              · rcases hhls : extractHls j with e | hls
                · simp [vkExtract, fetchStep, hn, hmpd, hrest, hj, hmp4, htr, hhls]
                · by_cases htr2 : jTruthy hls <;>
                    simp [vkExtract, fetchStep, hn, hmpd, hrest, hj, hmp4, htr, hhls, htr2]
  · intro d st2 h
    rcases hn : st.net with _ | ⟨r, rest⟩
    · simp [turboExtract, fetchStep, hn] at h
    · rcases hm1 : m1Search r.text with _ | m
      · simp [turboExtract, fetchStep, hn, hm1] at h
      · rcases hrest : rest with _ | ⟨r2, rest2⟩
        · simp [turboExtract, fetchStep, hn, hm1, hrest] at h
        · rcases hm2 : m2Search r2.text with _ | rm
          · simp [turboExtract, fetchStep, hn, hm1, hrest, hm2] at h
          · rcases hrest2 : rest2 with _ | ⟨r3, rest3⟩
            · simp [turboExtract, fetchStep, hn, hm1, hrest, hm2, hrest2] at h
            · simp only [turboExtract, fetchStep, hn, hm1, hrest, hm2, hrest2] at h
              have h2 := congrArg (fun p => p.2.baseHeaders) h
              simpa using h2.symm
  · intro e st2 h
    rcases hn : st.net with _ | ⟨r, rest⟩
    · simp only [turboExtract, fetchStep, hn] at h
      have h2 := congrArg (fun p => p.2.baseHeaders) h
      simpa using h2.symm
    · rcases hm1 : m1Search r.text with _ | m
      · simp only [turboExtract, fetchStep, hn, hm1] at h
        have h2 := congrArg (fun p => p.2.baseHeaders) h
        simpa using h2.symm
      · rcases hrest : rest with _ | ⟨r2, rest2⟩
        · simp only [turboExtract, fetchStep, hn, hm1, hrest] at h
          have h2 := congrArg (fun p => p.2.baseHeaders) h
          simpa using h2.symm
        · rcases hm2 : m2Search r2.text with _ | rm
          · simp only [turboExtract, fetchStep, hn, hm1, hrest, hm2] at h
            have h2 := congrArg (fun p => p.2.baseHeaders) h
            simpa using h2.symm
          · rcases hrest2 : rest2 with _ | ⟨r3, rest3⟩
            · simp only [turboExtract, fetchStep, hn, hm1, hrest, hm2, hrest2] at h
              have h2 := congrArg (fun p => p.2.baseHeaders) h
              simpa using h2.symm
            · simp [turboExtract, fetchStep, hn, hm1, hrest, hm2, hrest2] at h

/-- C8 witness: the amended theorem applied at concrete runs — a Vidoza
call leaves the headers untouched; a successful TurboVidPlay call turns
empty base headers into the assigned referer. -/
theorem C8_amended_witness :
    (vidozaExtract "https://x.example/" ⟨[], [], []⟩).2.baseHeaders = ([] : Headers)
    ∧ hset ([] : Headers) "referer" "https://emturbovid.com/t/abc"
        = [( "referer", "https://emturbovid.com/t/abc")] := by
  constructor
  · exact (C8_amended_mutation "https://x.example/" ⟨[], [], []⟩).1
  · exact ((C8_amended_mutation "https://emturbovid.com/t/abc"
      ⟨[{ text := "var urlPlay = 'https://mid.example/x'" },
        { text := "see https://cdn.example/real.m3u8 ok" },
        { text := "#EXTM3U\n#EXTINF:4.0,\nseg.ts" }], [], []⟩).2.2.1
      { destination_url := "https://cdn.example/real.m3u8",
        request_headers := [( "referer", "https://emturbovid.com/t/abc")],
        mediaflow_endpoint := "hls_playlist_proxy" }
      ⟨[], [ "https://emturbovid.com/t/abc", "https://mid.example/x",
             "https://cdn.example/real.m3u8"],
        [( "referer", "https://emturbovid.com/t/abc")]⟩ rfl).symm

/-- C2 counterexample: a fallback payload exposing both an HLS candidate
and a progressive `url720` candidate.  The claim says the
manifest-technology (HLS) candidate is returned; the run instead returns
the progressive candidate with the raw-stream endpoint, while the HLS
candidate was present and truthy. -/
theorem C2_counterexample :
    (vkExtract "https://vk.com/video-123_456"
        ⟨[{ text := "<html>player</html>", contentType := "text/html" },
          { text := c2FixtureText }], [], []⟩).1
      = .ok ⟨.str "https://c.example/v720.mp4", vkHeaders, "proxy_stream_endpoint"⟩
    ∧ jsonLoads (pyLstripSet "<!--" c2FixtureText) = some c2FixtureJson
    ∧ extractHls c2FixtureJson = .ok (.str "https://c.example/m.m3u8")
    ∧ jTruthy (.str "https://c.example/m.m3u8") = true :=
  ⟨rfl, rfl, rfl, rfl⟩

/-- C2 (amended): in the JSON fallback path the VK adapter prefers the
progressive candidate: whenever the progressive chain yields a truthy
value, that value is returned with the raw-stream endpoint — even when a
truthy HLS candidate is present in the same payload. -/
theorem C2_amended_progressive_first (url : String) (tr : List String) (bh : Headers)
    (r1 r2 : Response) (rest : List Response) (jsonData v w : J)
    (hmpd : vkIsMpd r1 = false)
    (hjson : jsonLoads (pyLstripSet "<!--" r2.text) = some jsonData)
    (hmp4 : extractProgressiveMp4 jsonData = .ok v) (hv : jTruthy v = true)
    (_hhls : extractHls jsonData = .ok w) (_hw : jTruthy w = true) :
    (vkExtract url ⟨r1 :: r2 :: rest, tr, bh⟩).1
      = .ok ⟨v, vkHeaders, "proxy_stream_endpoint"⟩ := by
  simp [vkExtract, fetchStep, hmpd, hjson, hmp4, hv]

/-- C2 witness: the amended theorem applied at the dual-candidate
fixture. -/
theorem C2_amended_witness :
    (vkExtract "https://vk.com/video-123_456"
        ⟨[{ text := "<html>x</html>" }, { text := c2FixtureText }], [], []⟩).1
      = .ok ⟨.str "https://c.example/v720.mp4", vkHeaders, "proxy_stream_endpoint"⟩ :=
  C2_amended_progressive_first "https://vk.com/video-123_456" [] []
    { text := "<html>x</html>" } { text := c2FixtureText } []
    c2FixtureJson (.str "https://c.example/v720.mp4") (.str "https://c.example/m.m3u8")
    rfl rfl rfl rfl rfl rfl

/-- C3 counterexample: a first response classified as DASH whose final
locator carries full-file-style query markers is returned as the DASH
manifest endpoint anyway — no denylist is consulted. -/
theorem C3_counterexample :
    (vkExtract "https://vk.com/video-123_456"
        ⟨[{ text := "<MPD>", finalURL := "https://vk6-1.vkuser.net/video.mpd?type=5&fromCache=1",
            contentType := "application/dash+xml" }], [], []⟩).1
      = .ok ⟨.str "https://vk6-1.vkuser.net/video.mpd?type=5&fromCache=1",
             vkHeaders, "mpd_manifest_proxy"⟩
    ∧ strContains "https://vk6-1.vkuser.net/video.mpd?type=5&fromCache=1" "fromCache" = true :=
  ⟨rfl, rfl⟩

/-- C3 (amended): the VK adapter checks no query-marker denylist: every
first response classified as DASH (by content type or `<MPD` body tag) is
returned as the DASH manifest endpoint with the response's final URL as
destination, whatever query string that URL carries. -/
theorem C3_amended_no_denylist (url : String) (tr : List String) (bh : Headers)
    (r : Response) (rest : List Response) (hmpd : vkIsMpd r = true) :
    (vkExtract url ⟨r :: rest, tr, bh⟩).1
      = .ok ⟨.str r.finalURL, vkHeaders, "mpd_manifest_proxy"⟩ := by
  simp [vkExtract, fetchStep, hmpd]

/-- C3 witness: the amended theorem applied at a DASH response whose URL
carries a full-file-style marker. -/
theorem C3_amended_witness :
    (vkExtract "https://vk.com/video-1_2"
        ⟨[{ text := "", finalURL := "https://vk6-2.vkuser.net/video.mpd?srcAg=X&type=4",
            contentType := "application/dash+xml" }], [], []⟩).1
      = .ok ⟨.str "https://vk6-2.vkuser.net/video.mpd?srcAg=X&type=4",
             vkHeaders, "mpd_manifest_proxy"⟩ :=
  C3_amended_no_denylist "https://vk.com/video-1_2" [] []
    { text := "", finalURL := "https://vk6-2.vkuser.net/video.mpd?srcAg=X&type=4",
      contentType := "application/dash+xml" } [] rfl

/-- C7: a fallback payload whose params node has no HLS fields, no
`url1080`, and both `url720` and `url360` resolves to the `url720` value
with the raw-stream endpoint: descending resolution order, first
non-empty wins. -/
theorem C7_progressive_resolution_order (url : String) (tr : List String) (bh : Headers)
    (r1 r2 : Response) (rest : List Response) (jsonData p : J) (v w : String)
    (hmpd : vkIsMpd r1 = false)
    (hjson : jsonLoads (pyLstripSet "<!--" r2.text) = some jsonData)
    (hp : mp4Params jsonData = .ok (some p))
    (h1080 : objGetD p "url1080" .null = .null)
    (h720 : objGetD p "url720" .null = .str v)
    (hv : (v != "") = true)
    (h360 : objGetD p "url360" .null = .str w)
    (hhls : objGetD p "hls" .null = .null)
    (hhlso : objGetD p "hls_ondemand" .null = .null)
    (hhlsl : objGetD p "hls_live" .null = .null) :
    (vkExtract url ⟨r1 :: r2 :: rest, tr, bh⟩).1
      = .ok ⟨.str v, vkHeaders, "proxy_stream_endpoint"⟩ := by
  rcases p with _ | b | n | s | l | fields
  · simp [objGetD] at h720
  · simp [objGetD] at h720
  · simp [objGetD] at h720
  · simp [objGetD] at h720
  · simp [objGetD] at h720
  · rcases fields with _ | ⟨kv, tfs⟩
    · simp [objGetD] at h720
    · have hmp4 : extractProgressiveMp4 jsonData = .ok (.str v) := by
        simp [extractProgressiveMp4, hp, dictGet, h1080, h720, pyOr, jTruthy, hv]
      simp [vkExtract, fetchStep, hmpd, hjson, hmp4, jTruthy, hv]

/-- C7 witness: the theorem applied at the `url720`/`url360` fixture. -/
theorem C7_witness :
    (vkExtract "https://vk.com/video-123_456"
        ⟨[{ text := "x", contentType := "text/html" },
          { text := c7FixtureText }], [], []⟩).1
      = .ok ⟨.str "https://c.example/v720.mp4", vkHeaders, "proxy_stream_endpoint"⟩ :=
  C7_progressive_resolution_order "https://vk.com/video-123_456" [] []
    { text := "x", contentType := "text/html" } { text := c7FixtureText } []
    c7FixtureJson c7FixtureParams
    "https://c.example/v720.mp4" "https://c.example/v360.mp4"
    rfl rfl rfl rfl rfl rfl rfl rfl rfl rfl

/-- One scan step on a well-formed item: it overwrites the accumulator
exactly when the item qualifies. -/
theorem paramsLoopStep_eq (acc : Option J) (it : J) (h : wfPlayer it = true) :
    paramsLoopStep acc it = .ok ((qualif it).or acc) := by
  rcases it with _ | b | n | s | l | fs
  · rfl
  · rfl
  · rfl
  · rfl
  · rfl
  · by_cases hpt : jTruthy (objGetD (.obj fs) "player" .null)
    · rcases hpl : objGetD (.obj fs) "player" .null with _ | pb | pn | ps | plst | pf
      · rw [hpl] at hpt; simp [jTruthy] at hpt
      · simp only [wfPlayer, hpl] at h
        rw [hpl] at hpt; simp [hpt] at h
      · simp only [wfPlayer, hpl] at h
        rw [hpl] at hpt; simp [hpt] at h
      · simp only [wfPlayer, hpl] at h
        rw [hpl] at hpt; simp [hpt] at h
      · simp only [wfPlayer, hpl] at h
        rw [hpl] at hpt; simp [hpt] at h
      · rw [hpl] at hpt
        rcases hpar : objGetD (.obj pf) "params" .null with _ | qb | qn | qs | qlist | qf
        · simp [paramsLoopStep, qualif, hpl, hpt, hpar, dictGet]
        · simp [paramsLoopStep, qualif, hpl, hpt, hpar, dictGet]
        · simp [paramsLoopStep, qualif, hpl, hpt, hpar, dictGet]
        · simp [paramsLoopStep, qualif, hpl, hpt, hpar, dictGet]
        · rcases qlist with _ | ⟨q0, qrest⟩ <;>
            simp [paramsLoopStep, qualif, hpl, hpt, hpar, dictGet]
        · simp [paramsLoopStep, qualif, hpl, hpt, hpar, dictGet]
    · simp [paramsLoopStep, qualif, hpt]

/-- The params scan is last-wins: over a well-formed payload it returns
the `params[0]` of the last qualifying item (the accumulator if none
qualifies). -/
theorem paramsLoop_eq_last (payload : List J) :
    ∀ (acc : Option J), wfPlayers payload = true →
      payload.foldlM paramsLoopStep acc
        = .ok (lastD ((payload.filterMap qualif).map some) acc) := by
  induction payload with
  | nil => intro acc _; rfl
  | cons it t ih =>
    intro acc hwf
    have h01 : wfPlayer it = true ∧ wfPlayers t = true := by
      simpa [wfPlayers, List.all_cons] using hwf
    rw [List.foldlM_cons, paramsLoopStep_eq acc it h01.1]
    rcases hq : qualif it with _ | x
    · simpa [List.filterMap_cons, hq, Option.or] using ih acc h01.2
    · simpa [List.filterMap_cons, hq, Option.or, lastD] using ih (some x) h01.2

/-- The outer payload scan keeps the last list-shaped entry. -/
theorem payloadPick_eq_lastD (items : List J) :
    payloadPick items = lastD (items.filterMap jAsList) [] := by
  suffices gen : ∀ (acc : List J),
      items.foldl (fun acc it =>
        match it with
        | .arr l => l
        | _ => acc) acc = lastD (items.filterMap jAsList) acc by
    exact gen []
  induction items with
  | nil => intro acc; rfl
  | cons it t ih =>
    intro acc
    rcases it with _ | b | n | s | l | fs <;>
      simp [List.foldl_cons, List.filterMap_cons, jAsList, lastD, ih]

/-- C10: the VK payload walk is last-wins at both levels — the scan over
`payload` keeps the last list it meets, and, over a payload free of
truthy non-dict players, both the progressive and the HLS params scans
settle on `params[0]` of the last qualifying item. -/
theorem C10_last_wins (items payload : List J) (hwf : wfPlayers payload = true) :
    payloadPick items = lastD (items.filterMap jAsList) []
    ∧ mp4ParamsLoop payload = .ok (lastD ((payload.filterMap qualif).map some) none)
    ∧ hlsParamsLoop payload = .ok (lastD ((payload.filterMap qualif).map some) none) :=
  ⟨payloadPick_eq_lastD items,
   paramsLoop_eq_last payload none hwf,
   paramsLoop_eq_last payload none hwf⟩

/-- C10 witness: two lists in the payload entry and two qualifying player
items — the second list and the second item's params win in both scans. -/
theorem C10_witness :
    mp4ParamsLoop
        [ .obj [( "player", .obj [( "params", J.arr [ .str "firstParams"])])],
          .obj [( "player", .obj [( "params", J.arr [ .str "secondParams"])])]]
      = .ok (some (J.str "secondParams"))
    ∧ hlsParamsLoop
        [ .obj [( "player", .obj [( "params", J.arr [ .str "firstParams"])])],
          .obj [( "player", .obj [( "params", J.arr [ .str "secondParams"])])]]
      = .ok (some (J.str "secondParams"))
    ∧ payloadPick [ .arr [ .str "first"], .arr [ .str "second"]] = [ .str "second"] := by
  have h := C10_last_wins [ .arr [ .str "first"], .arr [ .str "second"]]
    [ .obj [( "player", .obj [( "params", J.arr [ .str "firstParams"])])],
      .obj [( "player", .obj [( "params", J.arr [ .str "secondParams"])])]] rfl
  exact ⟨h.2.1, h.2.2, h.1⟩

end MFP
